import Mathlib

/-!
Shallow embedding of the three browser-automation verification scripts
`verification/verify_minesweeper.py`, `verification/verify_minesweeper_focus.py`
and `verification/verify_snake.py`.

Each Python script is a straight-line sequence of Playwright calls.  We embed
each script as a concrete list of statements (`Stmt`): browser actions
(`Action`) interleaved with `print` statements.  Execution is modelled against
an environment oracle (`Env`) that decides, for each fallible browser operation
in program order, whether it raises an exception (a timeout, a failed
assertion, a navigation error, ...) and how much wall-clock time it consumes.
Playwright guarantees that every fallible operation either completes or raises
within its timeout, so the time consumed by the k-th operation is capped at
that operation's timeout bound.

Running a script produces a `RunResult`: the trace of observable events
(browser session open/close, executed steps, screenshot file writes, printed
output), the process exit code, the elapsed time, and whether the process died
from an unhandled exception.  The top-level harness of each script mirrors its
Python control flow exactly: the `with sync_playwright()` block (whose exit
tears down any browser still live), `try/except/finally` in
verify_minesweeper.py, `try/except` around the call in
verify_minesweeper_focus.py, and the bare call in verify_snake.py.
-/

namespace Verify

/-- A declarative description of a target UI element, as built by the
Playwright locator API (`get_by_role`, `get_by_text`, `page.locator`, `.first`). -/
inductive Locator where
  | role (r : String) (name : String) : Locator
  | text (t : String) (exactMatch : Bool) : Locator
  | css (selector : String) : Locator
  | firstOf (l : Locator) : Locator
deriving DecidableEq

/-- One browser-automation operation, as issued by the scripts.  Assertions and
waits carry the effective timeout in milliseconds (Playwright defaults: 30000
for navigation, clicks and selector waits, 5000 for `expect` assertions, unless
the call site passes an explicit timeout). -/
inductive Action where
  | goto (url : String) : Action
  | click (l : Locator) : Action
  | assertVisible (l : Locator) (timeoutMs : Nat) : Action
  | assertFocused (l : Locator) (timeoutMs : Nat) : Action
  | keyPress (key : String) : Action
  | waitForLoadState (st : String) (timeoutMs : Nat) : Action
  | waitForSelector (sel : String) (timeoutMs : Nat) : Action
  | waitForTimeout (ms : Nat) : Action
  | sleep (ms : Nat) : Action
  | screenshot (path : String) : Action
deriving DecidableEq

/-- Upper bound, in milliseconds, on the time an action may consume before it
either completes or raises.  Fixed real-time waits consume exactly their
duration; every other operation is bounded by its (default or explicit)
Playwright timeout. -/
def Action.timeoutMs : Action → Nat
  | .goto _ => 30000
  | .click _ => 30000
  | .assertVisible _ t => t
  | .assertFocused _ t => t
  | .keyPress _ => 30000
  | .waitForLoadState _ t => t
  | .waitForSelector _ t => t
  | .waitForTimeout ms => ms
  | .sleep ms => ms
  | .screenshot _ => 30000

/-- Whether an action can raise an exception.  Fixed real-time waits
(`page.wait_for_timeout`, `time.sleep`) never raise; every other browser
operation can (timeout, failed assertion, navigation error, crashed page). -/
def Action.canFail : Action → Bool
  | .waitForTimeout _ => false
  | .sleep _ => false
  | _ => true

/-- Human-readable rendering of a locator, standing in for the locator
description Playwright embeds in its error and assertion messages. -/
def Locator.describe : Locator → String
  | .role r n => "role " ++ r ++ " named " ++ n
  | .text t _ => "text " ++ t
  | .css sel => "selector " ++ sel
  | .firstOf l => Locator.describe l ++ " (first match)"

/-- Human-readable rendering of an action, standing in for the step
description Playwright embeds in the exception raised by that step. -/
def Action.describe : Action → String
  | .goto u => "goto " ++ u
  | .click l => "click " ++ l.describe
  | .assertVisible l _ => "expect visible " ++ l.describe
  | .assertFocused l _ => "expect focused " ++ l.describe
  | .keyPress k => "press " ++ k
  | .waitForLoadState s _ => "wait for load state " ++ s
  | .waitForSelector s _ => "wait for selector " ++ s
  | .waitForTimeout _ => "wait for timeout"
  | .sleep _ => "sleep"
  | .screenshot p => "screenshot " ++ p

/-- One statement of a script body: a browser action, or a `print` call. -/
inductive Stmt where
  | step (a : Action) : Stmt
  | echo (msg : String) : Stmt
deriving DecidableEq

/-- Observable events of one script run: browser session opened / torn down,
a browser action executed (attempted), a line printed, an evidence file
written. -/
inductive Event where
  | openS : Event
  | closeS : Event
  | act (a : Action) : Event
  | out (s : String) : Event
  | write (p : String) : Event
deriving DecidableEq

/-- Environment oracle for one run: `fails k` says whether the k-th fallible
browser operation (in program order) raises, and `dur k` is the wall-clock
time it consumes when it completes (capped at the operation's timeout, which
Playwright enforces). -/
structure Env where
  fails : Nat → Bool
  dur : Nat → Nat

/-- Outcome of running a list of statements: the events emitted, the next
fallible-operation counter, the elapsed time, and the action that raised, if
any (execution stops at the first raising action). -/
structure StepsOutcome where
  trace : List Event
  ctr : Nat
  elapsed : Nat
  failed : Option Action
deriving DecidableEq

/-- Events emitted by one successfully completed action: the action itself,
plus the evidence-file write when the action is a screenshot. -/
def execEvents : Action → List Event
  | .screenshot p => [.act (.screenshot p), .write p]
  | a => [.act a]

/-- Sequential execution of a script body under an environment oracle,
starting at fallible-operation counter `c`.  A raising action is attempted
(it appears in the trace) but emits no write, consumes up to its timeout, and
aborts the rest of the body, as a Python exception does. -/
def runSteps (env : Env) : List Stmt → Nat → StepsOutcome
  | [], c => ⟨[], c, 0, none⟩
  | .echo m :: rest, c =>
      let r := runSteps env rest c
      ⟨.out m :: r.trace, r.ctr, r.elapsed, r.failed⟩
  | .step a :: rest, c =>
      if a.canFail then
        if env.fails c then
          ⟨[.act a], c + 1, a.timeoutMs, some a⟩
        else
          let r := runSteps env rest (c + 1)
          ⟨execEvents a ++ r.trace, r.ctr, min (env.dur c) a.timeoutMs + r.elapsed, r.failed⟩
      else
        let r := runSteps env rest c
        ⟨execEvents a ++ r.trace, r.ctr, a.timeoutMs + r.elapsed, r.failed⟩

/-- Trace of a body in which every statement completes successfully. -/
def successTrace : List Stmt → List Event
  | [] => []
  | .echo m :: rest => .out m :: successTrace rest
  | .step a :: rest => execEvents a ++ successTrace rest

/-- Sum of the per-statement time bounds of a body. -/
def boundSum : List Stmt → Nat
  | [] => 0
  | .echo _ :: rest => boundSum rest
  | .step a :: rest => a.timeoutMs + boundSum rest

/-- Result of one whole script run: observable trace, process exit code,
elapsed time, and whether the process terminated via an unhandled exception
(Python prints a traceback and exits with code 1 in that case). -/
structure RunResult where
  trace : List Event
  exitCode : Nat
  elapsed : Nat
  uncaught : Bool
deriving DecidableEq

/-- The target URL, a fixed literal identical in all three scripts. -/
def gamesUrl : String := "http://localhost:5173/games"

/-- Body of `test_minesweeper` in verify_minesweeper.py, statement for
statement: navigate, click the Mines tab, wait for the readiness text, take
the initial screenshot, wait for the labeled grid, click the Row 5 Column 5
cell, assert the Playing Minesweeper text, wait 2 seconds, take the final
screenshot. -/
def minesBody : List Stmt :=
  [ .step (.goto gamesUrl),
    .step (.click (.role "tab" "Mines")),
    .step (.assertVisible (.text "Minesweeper ready" false) 5000),
    .step (.screenshot "/home/jules/verification/minesweeper_initial.png"),
    .step (.assertVisible (.role "grid" "Minesweeper game board") 5000),
    .step (.click (.css "button[aria-label*=\x22Row 5, Column 5\x22]")),
    .step (.assertVisible (.text "Playing Minesweeper" false) 5000),
    .step (.waitForTimeout 2000),
    .step (.screenshot "/home/jules/verification/minesweeper_playing.png") ]

/-- Failure message printed by the except blocks of verify_minesweeper.py and
verify_minesweeper_focus.py: the literal text followed by the exception, which
identifies the failing step. -/
def failMsg (a : Action) : String := "Verification failed: " ++ a.describe

/-- Path of the diagnostic screenshot taken by verify_minesweeper.py's except
block. -/
def errorShotPath : String := "/home/jules/verification/error.png"

/-- The __main__ harness of verify_minesweeper.py: open the session, run the
body inside try; on success print the success message; on an exception print
the failure message and take a best-effort error screenshot (itself fallible);
the finally block always closes the browser.  Only an exception escaping the
except block (a failing error screenshot) leaves the process with a nonzero
exit. -/
def mainMines (env : Env) : RunResult :=
  let r := runSteps env minesBody 0
  match r.failed with
  | none =>
      ⟨.openS :: (r.trace ++ [.out "Verification script ran successfully.", .closeS]),
        0, r.elapsed, false⟩
  | some a =>
      let h := runSteps env [.step (.screenshot errorShotPath)] r.ctr
      ⟨.openS :: (r.trace ++ (.out (failMsg a) :: h.trace) ++ [.closeS]),
        if h.failed.isSome then 1 else 0, r.elapsed + h.elapsed, h.failed.isSome⟩

/-- Body of `test_minesweeper_focus` in verify_minesweeper_focus.py, statement
for statement, print calls included: navigate, wait for the Mines tab, click
it, wait for the labeled grid (explicit 10 s timeout), click the Row 1 Column 1
cell, assert it focused, press ArrowRight, assert the Row 1 Column 2 cell
focused, take the screenshot.  The final `browser.close()` of the function is
modelled by the harness below. -/
def focusBody : List Stmt :=
  [ .echo "Navigating to Games page...",
    .step (.goto gamesUrl),
    .step (.assertVisible (.role "tab" "Mines") 5000),
    .echo "Selecting Minesweeper...",
    .step (.click (.role "tab" "Mines")),
    .step (.assertVisible (.role "grid" "Minesweeper game board") 10000),
    .echo "Minesweeper loaded.",
    .echo "Clicking cell (0,0)...",
    .step (.click (.firstOf (.role "button" "Row 1, Column 1"))),
    .step (.assertFocused (.firstOf (.role "button" "Row 1, Column 1")) 5000),
    .echo "Cell (0,0) focused.",
    .echo "Pressing ArrowRight...",
    .step (.keyPress "ArrowRight"),
    .step (.assertFocused (.firstOf (.role "button" "Row 1, Column 2")) 5000),
    .echo "Cell (0,1) focused successfully!",
    .step (.screenshot "verification/minesweeper_focus.png"),
    .echo "Screenshot saved to verification/minesweeper_focus.png" ]

/-- The __main__ harness of verify_minesweeper_focus.py: the function itself
opens the session inside `with sync_playwright()`; on success it reaches its
explicit `browser.close()` and __main__ prints the success message; on an
exception the close call is skipped but the `with` exit tears the session down,
then __main__ catches, prints the failure message and calls `exit(1)`. -/
def mainFocus (env : Env) : RunResult :=
  let r := runSteps env focusBody 0
  match r.failed with
  | none =>
      ⟨.openS :: (r.trace ++ [.closeS, .out "Verification successful!"]), 0, r.elapsed, false⟩
  | some a =>
      ⟨.openS :: (r.trace ++ [.closeS, .out (failMsg a)]), 1, r.elapsed, false⟩

/-- Body of `run` in verify_snake.py, statement for statement, print calls
included: navigate, wait for network idle, click the Snake tab, wait for the
Snake Game overlay text, click Start Game, sleep 1 second, assert the labeled
board image visible, take the screenshot.  The final `browser.close()` and the
`print("Done.")` after it are modelled by the harness below. -/
def snakeBody : List Stmt :=
  [ .echo "Navigating to /games...",
    .step (.goto gamesUrl),
    .step (.waitForLoadState "networkidle" 30000),
    .echo "Clicking Snake tab...",
    .step (.click (.role "tab" "Snake")),
    .echo "Waiting for Snake game to load...",
    .step (.waitForSelector "text=Snake Game" 30000),
    .echo "Starting game...",
    .step (.click (.role "button" "Start Game")),
    .step (.sleep 1000),
    .step (.assertVisible (.role "img" "Snake game board") 5000),
    .echo "Taking screenshot...",
    .step (.screenshot "verification/snake_game.png") ]

/-- The __main__ harness of verify_snake.py: `run()` is called bare, with no
try/except anywhere.  On success the function closes the browser and prints
Done.  On an exception the `with` exit tears the session down and the
exception propagates unhandled out of the process, which exits with code 1. -/
def mainSnake (env : Env) : RunResult :=
  let r := runSteps env snakeBody 0
  match r.failed with
  | none =>
      ⟨.openS :: (r.trace ++ [.closeS, .out "Done."]), 0, r.elapsed, false⟩
  | some _ =>
      ⟨.openS :: (r.trace ++ [.closeS]), 1, r.elapsed, true⟩

/-- Process inputs a Python script could in principle consult: command-line
arguments, environment variables, a configuration file.  None of the three
scripts reads any of them, so the parameterised entry points below ignore this
argument, exactly as the sources do. -/
structure ProcInput where
  argv : List String
  envVars : String → Option String
  configFile : Option String

/-- verify_minesweeper.py as a process: its behaviour is a function of the
browser environment only; `ProcInput` is never consulted (the source reads no
sys.argv, no os.environ, no file). -/
def minesProcess (_i : ProcInput) (env : Env) : RunResult := mainMines env

/-- verify_minesweeper_focus.py as a process; `ProcInput` is never consulted. -/
def focusProcess (_i : ProcInput) (env : Env) : RunResult := mainFocus env

/-- verify_snake.py as a process; `ProcInput` is never consulted. -/
def snakeProcess (_i : ProcInput) (env : Env) : RunResult := mainSnake env

/-- Session lifecycle events. -/
def isSessionEv : Event → Bool
  | .openS => true
  | .closeS => true
  | _ => false

/-- A step-execution event (a browser action was attempted). -/
def isStepEv : Event → Bool
  | .act _ => true
  | _ => false

/-- An evidence-file write event. -/
def isWriteEv : Event → Bool
  | .write _ => true
  | _ => false

/-- A printed-output event. -/
def isOutEv : Event → Bool
  | .out _ => true
  | _ => false

/-- Evidence-file paths written during a trace, in order. -/
def writesOf (t : List Event) : List String :=
  t.filterMap fun e => match e with
    | .write p => some p
    | _ => none

/-- Whether a POSIX path is absolute: it starts with a slash. -/
def isAbsolutePath (p : String) : Bool :=
  match p.data with
  | [] => false
  | c :: _ => c == '/'

/-- Path resolution against a working directory: an absolute path resolves to
itself, a relative path resolves under the directory. -/
def resolvePath (cwd p : String) : String :=
  if isAbsolutePath p then p else cwd ++ "/" ++ p

/-- A run's trace is well scoped when it opens one session first, closes it
exactly once, emits session events nowhere else, and emits only printed output
(no step executions, no evidence writes) after the close. -/
def scopedTrace (t : List Event) : Prop :=
  ∃ pre post, t = .openS :: (pre ++ .closeS :: post) ∧
    (∀ e ∈ pre, isSessionEv e = false) ∧
    (∀ e ∈ post, isOutEv e = true)

/-- A run reports failure when its process either printed the failure message
for some step or died from an unhandled exception (traceback plus exit code 1). -/
def failureIndicated (r : RunResult) : Prop :=
  (∃ a, Event.out (failMsg a) ∈ r.trace) ∨ r.uncaught = true

/-- A run's trace opens one session at the start, closes it exactly once, and
executes every step and writes every evidence file strictly inside the
session's lifetime (nothing after the close except printed output). -/
def singleSessionScoped (t : List Event) : Prop :=
  ∃ pre post, t = .openS :: (pre ++ .closeS :: post) ∧
    Event.openS ∉ pre ∧ Event.closeS ∉ pre ∧
    Event.openS ∉ post ∧ Event.closeS ∉ post ∧
    ∀ e ∈ post, isStepEv e = false ∧ isWriteEv e = false

/-- Environment in which every browser operation succeeds instantly. -/
def envOK : Env := ⟨fun _ => false, fun _ => 0⟩

/-- Environment in which exactly the k-th fallible browser operation raises. -/
def envFailAt (k : Nat) : Env := ⟨fun c => c == k, fun _ => 0⟩

/-- Environment in which every fallible browser operation raises. -/
def envFailAll : Env := ⟨fun _ => true, fun _ => 0⟩

/-- The Minesweeper readiness-text assertion of verify_minesweeper.py. -/
def minesAssertReady : Action := .assertVisible (.text "Minesweeper ready" false) 5000

/-- The Minesweeper board-grid assertion of verify_minesweeper.py. -/
def minesAssertGrid : Action := .assertVisible (.role "grid" "Minesweeper game board") 5000

/-- The cell click of verify_minesweeper.py (partial aria-label match). -/
def minesClickCell : Action := .click (.css "button[aria-label*=\x22Row 5, Column 5\x22]")

/-- The post-click state assertion of verify_minesweeper.py. -/
def minesAssertPlaying : Action := .assertVisible (.text "Playing Minesweeper" false) 5000

/-- The Mines-tab visibility wait of verify_minesweeper_focus.py. -/
def focusAssertTab : Action := .assertVisible (.role "tab" "Mines") 5000

/-- The board-grid wait of verify_minesweeper_focus.py (explicit 10 s timeout). -/
def focusAssertGrid : Action := .assertVisible (.role "grid" "Minesweeper game board") 10000

/-- The click on cell Row 1, Column 1 in verify_minesweeper_focus.py. -/
def focusClickCell11 : Action := .click (.firstOf (.role "button" "Row 1, Column 1"))

/-- The focus assertion on cell Row 1, Column 1 in verify_minesweeper_focus.py. -/
def focusAssertFocused11 : Action := .assertFocused (.firstOf (.role "button" "Row 1, Column 1")) 5000

/-- The ArrowRight key press of verify_minesweeper_focus.py. -/
def focusPressRight : Action := .keyPress "ArrowRight"

/-- The focus assertion on cell Row 1, Column 2 in verify_minesweeper_focus.py. -/
def focusAssertFocused12 : Action := .assertFocused (.firstOf (.role "button" "Row 1, Column 2")) 5000

/-- The network-idle wait of verify_snake.py. -/
def snakeWaitLoad : Action := .waitForLoadState "networkidle" 30000

/-- The Snake-Game-overlay wait of verify_snake.py. -/
def snakeWaitSel : Action := .waitForSelector "text=Snake Game" 30000

/-- The Start Game click of verify_snake.py. -/
def snakeClickStart : Action := .click (.role "button" "Start Game")

/-- The board-image visibility assertion of verify_snake.py. -/
def snakeAssertBoard : Action := .assertVisible (.role "img" "Snake game board") 5000

lemma execEvents_not_session (a : Action) : ∀ e ∈ execEvents a, isSessionEv e = false := by
  cases a <;> simp [execEvents, isSessionEv]

lemma runSteps_sessionFree (env : Env) :
    ∀ (s : List Stmt) (c : Nat), ∀ e ∈ (runSteps env s c).trace, isSessionEv e = false := by
  intro s
  induction s with
  | nil => intro c e he; simp [runSteps] at he
  | cons hd rest ih =>
      intro c e he
      cases hd with
      | echo m =>
          simp only [runSteps, List.mem_cons] at he
          rcases he with rfl | he
          · rfl
          · exact ih c e he
      | step a =>
          by_cases hf : a.canFail
          · by_cases hb : env.fails c
            · simp [runSteps, hf, hb] at he
              subst he; rfl
            · simp [runSteps, hf, hb] at he
              rcases he with he | he
              · exact execEvents_not_session a e he
              · exact ih (c + 1) e he
          · simp [runSteps, hf] at he
            rcases he with he | he
            · exact execEvents_not_session a e he
            · exact ih c e he

lemma runSteps_success_trace (env : Env) :
    ∀ (s : List Stmt) (c : Nat), (runSteps env s c).failed = none →
      (runSteps env s c).trace = successTrace s := by
  intro s
  induction s with
  | nil => intro c _; rfl
  | cons hd rest ih =>
      intro c h
      cases hd with
      | echo m =>
          simp only [runSteps, successTrace] at h ⊢
          exact congrArg _ (ih c h)
      | step a =>
          by_cases hf : a.canFail
          · by_cases hb : env.fails c
            · simp [runSteps, hf, hb] at h
            · simp [runSteps, hf, hb, successTrace] at h ⊢
              exact ih (c + 1) h
          · simp [runSteps, hf, successTrace] at h ⊢
            exact ih c h

lemma runSteps_elapsed_le (env : Env) :
    ∀ (s : List Stmt) (c : Nat), (runSteps env s c).elapsed ≤ boundSum s := by
  intro s
  induction s with
  | nil => intro c; simp [runSteps, boundSum]
  | cons hd rest ih =>
      intro c
      cases hd with
      | echo m =>
          simp only [runSteps, boundSum]
          exact ih c
      | step a =>
          by_cases hf : a.canFail
          · by_cases hb : env.fails c
            · simp [runSteps, hf, hb, boundSum]
            · simp [runSteps, hf, hb, boundSum]
              exact Nat.add_le_add (Nat.min_le_right _ _) (ih (c + 1))
          · simp [runSteps, hf, boundSum]
            exact ih c

lemma scoped_mainMines (env : Env) : scopedTrace (mainMines env).trace := by
  rcases hf : (runSteps env minesBody 0).failed with _ | a
  · refine ⟨(runSteps env minesBody 0).trace ++ [.out "Verification script ran successfully."],
      [], ?_, ?_, ?_⟩
    · simp [mainMines, hf]
    · intro e he
      rcases List.mem_append.1 he with he | he
      · exact runSteps_sessionFree env minesBody 0 e he
      · simp only [List.mem_singleton] at he
        subst he; rfl
    · intro e he; simp at he
  · refine ⟨(runSteps env minesBody 0).trace ++
      .out (failMsg a) ::
        (runSteps env [.step (.screenshot errorShotPath)] (runSteps env minesBody 0).ctr).trace,
      [], ?_, ?_, ?_⟩
    · simp [mainMines, hf]
    · intro e he
      rcases List.mem_append.1 he with he | he
      · exact runSteps_sessionFree env minesBody 0 e he
      · rcases List.mem_cons.1 he with rfl | he
        · rfl
        · exact runSteps_sessionFree env _ _ e he
    · intro e he; simp at he

lemma scoped_mainFocus (env : Env) : scopedTrace (mainFocus env).trace := by
  rcases hf : (runSteps env focusBody 0).failed with _ | a
  · refine ⟨(runSteps env focusBody 0).trace, [.out "Verification successful!"], ?_, ?_, ?_⟩
    · simp [mainFocus, hf]
    · intro e he; exact runSteps_sessionFree env focusBody 0 e he
    · intro e he
      simp only [List.mem_singleton] at he
      subst he; rfl
  · refine ⟨(runSteps env focusBody 0).trace, [.out (failMsg a)], ?_, ?_, ?_⟩
    · simp [mainFocus, hf]
    · intro e he; exact runSteps_sessionFree env focusBody 0 e he
    · intro e he
      simp only [List.mem_singleton] at he
      subst he; rfl

lemma scoped_mainSnake (env : Env) : scopedTrace (mainSnake env).trace := by
  rcases hf : (runSteps env snakeBody 0).failed with _ | a
  · refine ⟨(runSteps env snakeBody 0).trace, [.out "Done."], ?_, ?_, ?_⟩
    · simp [mainSnake, hf]
    · intro e he; exact runSteps_sessionFree env snakeBody 0 e he
    · intro e he
      simp only [List.mem_singleton] at he
      subst he; rfl
  · refine ⟨(runSteps env snakeBody 0).trace, [], ?_, ?_, ?_⟩
    · simp [mainSnake, hf]
    · intro e he; exact runSteps_sessionFree env snakeBody 0 e he
    · intro e he; simp at he

lemma scopedTrace_count {t : List Event} (h : scopedTrace t) :
    t.count Event.openS = 1 ∧ t.count Event.closeS = 1 := by
  obtain ⟨pre, post, rfl, hpre, hpost⟩ := h
  have hpre1 : Event.openS ∉ pre := fun hm => by
    have := hpre _ hm; simp [isSessionEv] at this
  have hpre2 : Event.closeS ∉ pre := fun hm => by
    have := hpre _ hm; simp [isSessionEv] at this
  have hpost1 : Event.openS ∉ post := fun hm => by
    have := hpost _ hm; simp [isOutEv] at this
  have hpost2 : Event.closeS ∉ post := fun hm => by
    have := hpost _ hm; simp [isOutEv] at this
  constructor
  · simp [List.count_cons, List.count_append, List.count_eq_zero.mpr hpre1,
      List.count_eq_zero.mpr hpost1]
  · simp [List.count_cons, List.count_append, List.count_eq_zero.mpr hpre2,
      List.count_eq_zero.mpr hpost2]

lemma scopedTrace_single {t : List Event} (h : scopedTrace t) : singleSessionScoped t := by
  obtain ⟨pre, post, rfl, hpre, hpost⟩ := h
  refine ⟨pre, post, rfl, ?_, ?_, ?_, ?_, ?_⟩
  · intro hm; have := hpre _ hm; simp [isSessionEv] at this
  · intro hm; have := hpre _ hm; simp [isSessionEv] at this
  · intro hm; have := hpost _ hm; simp [isOutEv] at this
  · intro hm; have := hpost _ hm; simp [isOutEv] at this
  · intro e hm
    have := hpost _ hm
    cases e <;> first
      | exact ⟨rfl, rfl⟩
      | simp [isOutEv] at this

lemma execEvents_write {a : Action} {p : String} (h : Event.write p ∈ execEvents a) :
    a = .screenshot p := by
  cases a <;> simp [execEvents] at h
  exact congrArg Action.screenshot h.symm

lemma execEvents_out {a : Action} {m : String} (h : Event.out m ∈ execEvents a) : False := by
  cases a <;> simp [execEvents] at h

lemma runSteps_write_mem (env : Env) :
    ∀ (s : List Stmt) (c : Nat) (p : String),
      Event.write p ∈ (runSteps env s c).trace → Stmt.step (.screenshot p) ∈ s := by
  intro s
  induction s with
  | nil => intro c p hm; simp [runSteps] at hm
  | cons hd rest ih =>
      intro c p hm
      cases hd with
      | echo m =>
          simp only [runSteps, List.mem_cons] at hm
          rcases hm with hm | hm
          · exact absurd hm (by simp)
          · exact List.mem_cons_of_mem _ (ih c p hm)
      | step a =>
          by_cases hf : a.canFail
          · by_cases hb : env.fails c
            · simp [runSteps, hf, hb] at hm
            · simp [runSteps, hf, hb] at hm
              rcases hm with hm | hm
              · exact (execEvents_write hm) ▸ List.mem_cons_self _ _
              · exact List.mem_cons_of_mem _ (ih (c + 1) p hm)
          · simp [runSteps, hf] at hm
            rcases hm with hm | hm
            · exact (execEvents_write hm) ▸ List.mem_cons_self _ _
            · exact List.mem_cons_of_mem _ (ih c p hm)

lemma runSteps_out_mem (env : Env) :
    ∀ (s : List Stmt) (c : Nat) (m : String),
      Event.out m ∈ (runSteps env s c).trace → Stmt.echo m ∈ s := by
  intro s
  induction s with
  | nil => intro c m hm; simp [runSteps] at hm
  | cons hd rest ih =>
      intro c m hm
      cases hd with
      | echo m0 =>
          simp only [runSteps, List.mem_cons] at hm
          rcases hm with hm | hm
          · simp only [Event.out.injEq] at hm
            subst hm; exact List.mem_cons_self _ _
          · exact List.mem_cons_of_mem _ (ih c m hm)
      | step a =>
          by_cases hf : a.canFail
          · by_cases hb : env.fails c
            · simp [runSteps, hf, hb] at hm
            · simp [runSteps, hf, hb] at hm
              rcases hm with hm | hm
              · exact absurd hm execEvents_out
              · exact List.mem_cons_of_mem _ (ih (c + 1) m hm)
          · simp [runSteps, hf] at hm
            rcases hm with hm | hm
            · exact absurd hm execEvents_out
            · exact List.mem_cons_of_mem _ (ih c m hm)

/-- C1: for every run of each of the three scenario scripts, under every
environment (including environments in which any assertion or wait fails
partway through the step sequence), exactly one browser session open event and
exactly one session close event occur in the run's trace. -/
theorem C1_session_opened_closed_once (env : Env) :
    ((mainMines env).trace.count Event.openS = 1 ∧
      (mainMines env).trace.count Event.closeS = 1) ∧
    ((mainFocus env).trace.count Event.openS = 1 ∧
      (mainFocus env).trace.count Event.closeS = 1) ∧
    ((mainSnake env).trace.count Event.openS = 1 ∧
      (mainSnake env).trace.count Event.closeS = 1) :=
  ⟨scopedTrace_count (scoped_mainMines env), scopedTrace_count (scoped_mainFocus env),
    scopedTrace_count (scoped_mainSnake env)⟩

/-- C9: for every run of each scenario script, at most one session is live at
any time (the trace opens exactly one session, first, and closes it exactly
once), the session's lifetime strictly contains the execution of every step,
and no evidence write occurs after the session has been torn down. -/
theorem C9_session_lifetime_contains_steps (env : Env) :
    singleSessionScoped (mainMines env).trace ∧
    singleSessionScoped (mainFocus env).trace ∧
    singleSessionScoped (mainSnake env).trace :=
  ⟨scopedTrace_single (scoped_mainMines env), scopedTrace_single (scoped_mainFocus env),
    scopedTrace_single (scoped_mainSnake env)⟩

/-- C8: no scenario script reads command-line arguments, environment variables
or a configuration file: each script's behaviour is the same function of the
browser environment for any two process inputs, the target URL is the fixed
literal of the sources, and the evidence paths written on a successful run are
the fixed literals of the sources. -/
theorem C8_no_external_configuration (i j : ProcInput) (env : Env) :
    minesProcess i env = minesProcess j env ∧
    focusProcess i env = focusProcess j env ∧
    snakeProcess i env = snakeProcess j env ∧
    gamesUrl = "http://localhost:5173/games" ∧
    writesOf (successTrace minesBody) =
      ["/home/jules/verification/minesweeper_initial.png",
       "/home/jules/verification/minesweeper_playing.png"] ∧
    writesOf (successTrace focusBody) = ["verification/minesweeper_focus.png"] ∧
    writesOf (successTrace snakeBody) = ["verification/snake_game.png"] :=
  ⟨rfl, rfl, rfl, rfl, by decide, by decide, by decide⟩

/-- C10: on a successful run verify_minesweeper.py writes its two screenshots
to absolute paths under /home/jules/verification, while
verify_minesweeper_focus.py and verify_snake.py write to relative paths under
verification/, which resolve against the current working directory: the
absolute paths resolve to themselves for every working directory, and the
relative paths resolve differently under different working directories. -/
theorem C10_evidence_path_nonuniformity (env : Env) :
    ((runSteps env minesBody 0).failed = none →
      writesOf (mainMines env).trace =
        ["/home/jules/verification/minesweeper_initial.png",
         "/home/jules/verification/minesweeper_playing.png"]) ∧
    ((runSteps env focusBody 0).failed = none →
      writesOf (mainFocus env).trace = ["verification/minesweeper_focus.png"]) ∧
    ((runSteps env snakeBody 0).failed = none →
      writesOf (mainSnake env).trace = ["verification/snake_game.png"]) ∧
    isAbsolutePath "/home/jules/verification/minesweeper_initial.png" = true ∧
    isAbsolutePath "/home/jules/verification/minesweeper_playing.png" = true ∧
    isAbsolutePath "verification/minesweeper_focus.png" = false ∧
    isAbsolutePath "verification/snake_game.png" = false ∧
    (∀ cwd, resolvePath cwd "/home/jules/verification/minesweeper_initial.png" =
      "/home/jules/verification/minesweeper_initial.png") ∧
    (∀ cwd, resolvePath cwd "/home/jules/verification/minesweeper_playing.png" =
      "/home/jules/verification/minesweeper_playing.png") ∧
    resolvePath "/cwd1" "verification/minesweeper_focus.png" ≠
      resolvePath "/cwd2" "verification/minesweeper_focus.png" ∧
    resolvePath "/cwd1" "verification/snake_game.png" ≠
      resolvePath "/cwd2" "verification/snake_game.png" := by
  refine ⟨?_, ?_, ?_, by decide, by decide, by decide, by decide,
    fun _ => rfl, fun _ => rfl, by decide, by decide⟩
  · intro h
    have ht := runSteps_success_trace env minesBody 0 h
    simp only [mainMines, h]
    rw [ht]
    decide
  · intro h
    have ht := runSteps_success_trace env focusBody 0 h
    simp only [mainFocus, h]
    rw [ht]
    decide
  · intro h
    have ht := runSteps_success_trace env snakeBody 0 h
    simp only [mainSnake, h]
    rw [ht]
    decide

/-- Witness for C10: under the all-success environment each script's run
writes exactly the evidence files stated. -/
theorem C10_evidence_path_nonuniformity_witness :
    writesOf (mainMines envOK).trace =
      ["/home/jules/verification/minesweeper_initial.png",
       "/home/jules/verification/minesweeper_playing.png"] ∧
    writesOf (mainFocus envOK).trace = ["verification/minesweeper_focus.png"] ∧
    writesOf (mainSnake envOK).trace = ["verification/snake_game.png"] :=
  ⟨(C10_evidence_path_nonuniformity envOK).1 rfl,
   (C10_evidence_path_nonuniformity envOK).2.1 rfl,
   (C10_evidence_path_nonuniformity envOK).2.2.1 rfl⟩

/-- C4: in the first Minesweeper scenario, a passing run executes exactly the
scripted event sequence, in which the readiness state is established (the
Minesweeper ready text and the labeled game-board grid are asserted visible,
at positions 2 and 5), followed immediately by the single click on the Row 5,
Column 5 cell (position 6) and then, immediately after exactly that click, by
the single assertion that the text Playing Minesweeper is visible (position
7): hence every run the scenario passes exhibited that text visible after that
click. -/
theorem C4_cell_click_starts_playing (env : Env)
    (h : (runSteps env minesBody 0).failed = none) :
    (runSteps env minesBody 0).trace = successTrace minesBody ∧
    (successTrace minesBody)[2]? = some (.act minesAssertReady) ∧
    (successTrace minesBody)[5]? = some (.act minesAssertGrid) ∧
    (successTrace minesBody)[6]? = some (.act minesClickCell) ∧
    (successTrace minesBody)[7]? = some (.act minesAssertPlaying) ∧
    (successTrace minesBody).count (.act minesClickCell) = 1 ∧
    (successTrace minesBody).count (.act minesAssertPlaying) = 1 :=
  ⟨runSteps_success_trace env minesBody 0 h, by decide, by decide, by decide, by decide,
    by decide, by decide⟩

/-- Witness for C4: under the all-success environment the run passes and its
body trace is the scripted sequence. -/
theorem C4_cell_click_starts_playing_witness :
    (runSteps envOK minesBody 0).failed = none ∧
      (runSteps envOK minesBody 0).trace = successTrace minesBody :=
  ⟨rfl, (C4_cell_click_starts_playing envOK rfl).1⟩

/-- C5: in the focus-navigation scenario, a passing run executes exactly the
scripted event sequence, in which cell Row 1, Column 1 is clicked (position 8)
and asserted focused (position 9), then the ArrowRight key is pressed
(position 12) and cell Row 1, Column 2 is asserted focused (position 13), each
of these exactly once: hence every run the scenario passes exhibited focus
moving from cell (1,1) to cell (1,2) on ArrowRight. -/
theorem C5_arrow_right_moves_focus (env : Env)
    (h : (runSteps env focusBody 0).failed = none) :
    (runSteps env focusBody 0).trace = successTrace focusBody ∧
    (successTrace focusBody)[8]? = some (.act focusClickCell11) ∧
    (successTrace focusBody)[9]? = some (.act focusAssertFocused11) ∧
    (successTrace focusBody)[12]? = some (.act focusPressRight) ∧
    (successTrace focusBody)[13]? = some (.act focusAssertFocused12) ∧
    (successTrace focusBody).count (.act focusClickCell11) = 1 ∧
    (successTrace focusBody).count (.act focusAssertFocused11) = 1 ∧
    (successTrace focusBody).count (.act focusPressRight) = 1 ∧
    (successTrace focusBody).count (.act focusAssertFocused12) = 1 :=
  ⟨runSteps_success_trace env focusBody 0 h, by decide, by decide, by decide, by decide,
    by decide, by decide, by decide, by decide⟩

/-- Witness for C5: under the all-success environment the run passes and its
body trace is the scripted sequence. -/
theorem C5_arrow_right_moves_focus_witness :
    (runSteps envOK focusBody 0).failed = none ∧
      (runSteps envOK focusBody 0).trace = successTrace focusBody :=
  ⟨rfl, (C5_arrow_right_moves_focus envOK rfl).1⟩

/-- C6: in the Snake scenario, a passing run executes exactly the scripted
event sequence, in which the Start Game button is clicked exactly once
(position 8), a fixed one-second real-time wait follows (position 9), and then
the element with role image and accessible name Snake game board is asserted
visible exactly once (position 10), within that assertion's 5000 ms timeout:
hence every run the scenario passes exhibited the labeled board visible after
the click. -/
theorem C6_start_game_shows_board (env : Env)
    (h : (runSteps env snakeBody 0).failed = none) :
    (runSteps env snakeBody 0).trace = successTrace snakeBody ∧
    (successTrace snakeBody)[8]? = some (.act snakeClickStart) ∧
    (successTrace snakeBody)[9]? = some (.act (.sleep 1000)) ∧
    (successTrace snakeBody)[10]? = some (.act snakeAssertBoard) ∧
    snakeAssertBoard.timeoutMs = 5000 ∧
    (successTrace snakeBody).count (.act snakeClickStart) = 1 ∧
    (successTrace snakeBody).count (.act snakeAssertBoard) = 1 :=
  ⟨runSteps_success_trace env snakeBody 0 h, by decide, by decide, by decide, rfl,
    by decide, by decide⟩

/-- Witness for C6: under the all-success environment the run passes and its
body trace is the scripted sequence. -/
theorem C6_start_game_shows_board_witness :
    (runSteps envOK snakeBody 0).failed = none ∧
      (runSteps envOK snakeBody 0).trace = successTrace snakeBody :=
  ⟨rfl, (C6_start_game_shows_board envOK rfl).1⟩

lemma act_mem_execEvents (a : Action) : Event.act a ∈ execEvents a := by
  cases a <;> simp [execEvents]

lemma runSteps_single_act (env : Env) (a : Action) (c : Nat) (hf : a.canFail = true) :
    Event.act a ∈ (runSteps env [.step a] c).trace := by
  by_cases hb : env.fails c
  · simp [runSteps, hf, hb]
  · simp only [runSteps, hf, hb, if_true, if_false]
    simp [act_mem_execEvents a]

/-- Counterexample to C2: under the environment in which the very first
browser operation (the navigation) raises, the verify_snake.py run fails, yet
the fault propagates unhandled out of the process (uncaught = true), no
diagnostic screenshot is written (the trace contains no write event at all),
and no failure message is printed (the only printed line is the navigation
progress message), contradicting the claim that every scenario catches the
fault, writes a screenshot and reports a failure message. -/
theorem C2_counterexample :
    (runSteps (envFailAt 0) snakeBody 0).failed = some (.goto gamesUrl) ∧
    (mainSnake (envFailAt 0)).trace =
      [.openS, .out "Navigating to /games...", .act (.goto gamesUrl), .closeS] ∧
    (mainSnake (envFailAt 0)).uncaught = true ∧
    writesOf (mainSnake (envFailAt 0)).trace = [] :=
  ⟨rfl, rfl, rfl, rfl⟩

/-- C2 as amended: only verify_minesweeper.py implements the full policy on a
failing run: it catches the fault (propagating it further only if the
diagnostic screenshot itself fails), prints the human-readable failure message
identifying the failing step, attempts the best-effort diagnostic screenshot,
and writes it whenever that screenshot succeeds.  verify_minesweeper_focus.py
catches the fault and prints the failure message but writes no diagnostic
screenshot.  verify_snake.py lets the fault propagate unhandled, printing only
the progress messages of the steps already executed. -/
theorem C2_amended_failure_handling (env : Env) (a : Action) :
    ((runSteps env minesBody 0).failed = some a →
      (mainMines env).uncaught =
        (runSteps env [.step (.screenshot errorShotPath)]
          (runSteps env minesBody 0).ctr).failed.isSome ∧
      Event.out (failMsg a) ∈ (mainMines env).trace ∧
      Event.act (.screenshot errorShotPath) ∈ (mainMines env).trace ∧
      ((runSteps env [.step (.screenshot errorShotPath)]
          (runSteps env minesBody 0).ctr).failed = none →
        Event.write errorShotPath ∈ (mainMines env).trace)) ∧
    ((runSteps env focusBody 0).failed = some a →
      (mainFocus env).uncaught = false ∧
      Event.out (failMsg a) ∈ (mainFocus env).trace ∧
      Event.write errorShotPath ∉ (mainFocus env).trace) ∧
    ((runSteps env snakeBody 0).failed = some a →
      (mainSnake env).uncaught = true ∧
      ∀ s, Event.out s ∈ (mainSnake env).trace → Stmt.echo s ∈ snakeBody) := by
  refine ⟨?_, ?_, ?_⟩
  · intro h
    refine ⟨by simp [mainMines, h], by simp [mainMines, h], ?_, ?_⟩
    · simp only [mainMines, h]
      simp only [List.mem_cons, List.mem_append]
      exact Or.inr (Or.inl (Or.inr (Or.inr (runSteps_single_act env _ _ rfl))))
    · intro hh
      have ht := runSteps_success_trace env
        [.step (.screenshot errorShotPath)] (runSteps env minesBody 0).ctr hh
      simp only [mainMines, h]
      rw [List.mem_cons, List.mem_append, List.mem_append, ht]
      exact Or.inr (Or.inl (Or.inr (by simp [successTrace, execEvents])))
  · intro h
    refine ⟨by simp [mainFocus, h], by simp [mainFocus, h], ?_⟩
    intro hw
    simp only [mainFocus, h, List.mem_cons, List.mem_append] at hw
    rcases hw with hw | hw | hw
    · exact absurd hw (by simp)
    · have := runSteps_write_mem env focusBody 0 errorShotPath hw
      revert this
      decide
    · simp at hw
  · intro h
    refine ⟨by simp [mainSnake, h], ?_⟩
    intro s hs
    simp only [mainSnake, h, List.mem_cons, List.mem_append] at hs
    rcases hs with hs | hs | hs
    · exact absurd hs (by simp)
    · exact runSteps_out_mem env snakeBody 0 s hs
    · simp at hs

/-- Witness for C2 as amended: under the environment failing the first
browser operation, the Minesweeper scenario prints the failure message and
writes the diagnostic screenshot, the focus scenario prints the failure
message and writes no diagnostic screenshot, and the Snake scenario dies from
the unhandled fault. -/
theorem C2_amended_failure_handling_witness :
    (Event.out (failMsg (.goto gamesUrl)) ∈ (mainMines (envFailAt 0)).trace ∧
      Event.write errorShotPath ∈ (mainMines (envFailAt 0)).trace) ∧
    (Event.out (failMsg (.goto gamesUrl)) ∈ (mainFocus (envFailAt 0)).trace ∧
      Event.write errorShotPath ∉ (mainFocus (envFailAt 0)).trace) ∧
    (mainSnake (envFailAt 0)).uncaught = true := by
  have hm := (C2_amended_failure_handling (envFailAt 0) (.goto gamesUrl)).1 (by rfl)
  have hf := (C2_amended_failure_handling (envFailAt 0) (.goto gamesUrl)).2.1 (by rfl)
  have hs := (C2_amended_failure_handling (envFailAt 0) (.goto gamesUrl)).2.2 (by rfl)
  exact ⟨⟨hm.2.1, hm.2.2.2 (by rfl)⟩, ⟨hf.2.1, hf.2.2⟩, hs.1⟩

/-- Counterexample to C3: under the environment in which the very first
browser operation (the navigation) raises, the verify_minesweeper.py run has a
failing step, yet the process exits with code 0 (the except block swallows the
fault and the error screenshot succeeds), contradicting the claim that every
run with a failing step terminates with a nonzero exit. -/
theorem C3_counterexample :
    (runSteps (envFailAt 0) minesBody 0).failed = some (.goto gamesUrl) ∧
    (mainMines (envFailAt 0)).exitCode = 0 :=
  ⟨rfl, rfl⟩

/-- C3 as amended: fully successful runs exit 0 in all three scripts, and
failing runs of verify_minesweeper_focus.py and verify_snake.py exit 1; but
verify_minesweeper.py does not signal failure through its exit code: a run
with a failing step exits 0 whenever the diagnostic error screenshot succeeds,
and exits nonzero only when that screenshot also fails. -/
theorem C3_amended_exit_codes (env : Env) :
    ((runSteps env minesBody 0).failed = none → (mainMines env).exitCode = 0) ∧
    ((runSteps env focusBody 0).failed = none → (mainFocus env).exitCode = 0) ∧
    ((runSteps env snakeBody 0).failed = none → (mainSnake env).exitCode = 0) ∧
    ((runSteps env focusBody 0).failed ≠ none → (mainFocus env).exitCode = 1) ∧
    ((runSteps env snakeBody 0).failed ≠ none → (mainSnake env).exitCode = 1) ∧
    ((runSteps env minesBody 0).failed ≠ none →
      ((runSteps env [.step (.screenshot errorShotPath)]
          (runSteps env minesBody 0).ctr).failed = none → (mainMines env).exitCode = 0) ∧
      ((runSteps env [.step (.screenshot errorShotPath)]
          (runSteps env minesBody 0).ctr).failed ≠ none → (mainMines env).exitCode = 1)) := by
  refine ⟨fun h => by simp [mainMines, h], fun h => by simp [mainFocus, h],
    fun h => by simp [mainSnake, h], ?_, ?_, ?_⟩
  · intro h
    rcases hx : (runSteps env focusBody 0).failed with _ | a
    · exact absurd hx h
    · simp [mainFocus, hx]
  · intro h
    rcases hx : (runSteps env snakeBody 0).failed with _ | a
    · exact absurd hx h
    · simp [mainSnake, hx]
  · intro h
    rcases hx : (runSteps env minesBody 0).failed with _ | a
    · exact absurd hx h
    · constructor
      · intro hh
        simp [mainMines, hx, hh]
      · intro hh
        rcases hy : (runSteps env [.step (.screenshot errorShotPath)]
            (runSteps env minesBody 0).ctr).failed with _ | b
        · exact absurd hy hh
        · simp [mainMines, hx, hy]

/-- Witness for C3 as amended: concrete runs hitting each exit-code case. -/
theorem C3_amended_exit_codes_witness :
    (mainMines envOK).exitCode = 0 ∧ (mainFocus envOK).exitCode = 0 ∧
    (mainSnake envOK).exitCode = 0 ∧ (mainFocus (envFailAt 0)).exitCode = 1 ∧
    (mainSnake (envFailAt 0)).exitCode = 1 ∧ (mainMines (envFailAt 0)).exitCode = 0 ∧
    (mainMines envFailAll).exitCode = 1 :=
  ⟨(C3_amended_exit_codes envOK).1 rfl, (C3_amended_exit_codes envOK).2.1 rfl,
   (C3_amended_exit_codes envOK).2.2.1 rfl,
   (C3_amended_exit_codes (envFailAt 0)).2.2.2.1 (by decide),
   (C3_amended_exit_codes (envFailAt 0)).2.2.2.2.1 (by decide),
   ((C3_amended_exit_codes (envFailAt 0)).2.2.2.2.2 (by decide)).1 (by rfl),
   ((C3_amended_exit_codes envFailAll).2.2.2.2.2 (by decide)).2 (by decide)⟩

/-- C7: every wait in every scenario is bounded by a finite timeout (the
readiness waits carry the bounds 5000, 5000, 5000, 10000, 30000, 30000 and
5000 ms), every run's elapsed time is bounded by the sum of the per-step
bounds (197000, 175000 and 186000 ms respectively), and under every
environment in which a step fails (in particular one whose readiness signal
never appears), the run reports failure and the session close event is still
in its trace. -/
theorem C7_bounded_waits_report_failure (env : Env) :
    ((mainMines env).elapsed ≤ 197000 ∧ (mainFocus env).elapsed ≤ 175000 ∧
      (mainSnake env).elapsed ≤ 186000) ∧
    (Stmt.step minesAssertReady ∈ minesBody ∧ minesAssertReady.timeoutMs = 5000 ∧
      Stmt.step minesAssertGrid ∈ minesBody ∧ minesAssertGrid.timeoutMs = 5000 ∧
      Stmt.step focusAssertTab ∈ focusBody ∧ focusAssertTab.timeoutMs = 5000 ∧
      Stmt.step focusAssertGrid ∈ focusBody ∧ focusAssertGrid.timeoutMs = 10000 ∧
      Stmt.step snakeWaitLoad ∈ snakeBody ∧ snakeWaitLoad.timeoutMs = 30000 ∧
      Stmt.step snakeWaitSel ∈ snakeBody ∧ snakeWaitSel.timeoutMs = 30000 ∧
      Stmt.step snakeAssertBoard ∈ snakeBody ∧ snakeAssertBoard.timeoutMs = 5000) ∧
    (∀ a, (runSteps env minesBody 0).failed = some a →
      failureIndicated (mainMines env) ∧ Event.closeS ∈ (mainMines env).trace) ∧
    (∀ a, (runSteps env focusBody 0).failed = some a →
      failureIndicated (mainFocus env) ∧ Event.closeS ∈ (mainFocus env).trace) ∧
    (∀ a, (runSteps env snakeBody 0).failed = some a →
      failureIndicated (mainSnake env) ∧ Event.closeS ∈ (mainSnake env).trace) := by
  refine ⟨⟨?_, ?_, ?_⟩, by decide, ?_, ?_, ?_⟩
  · rcases hx : (runSteps env minesBody 0).failed with _ | a
    · simp only [mainMines, hx]
      exact le_trans (runSteps_elapsed_le env minesBody 0) (by decide)
    · simp only [mainMines, hx]
      exact le_trans
        (Nat.add_le_add (runSteps_elapsed_le env minesBody 0) (runSteps_elapsed_le env _ _))
        (by decide)
  · rcases hx : (runSteps env focusBody 0).failed with _ | a
    · simp only [mainFocus, hx]
      exact le_trans (runSteps_elapsed_le env focusBody 0) (by decide)
    · simp only [mainFocus, hx]
      exact le_trans (runSteps_elapsed_le env focusBody 0) (by decide)
  · rcases hx : (runSteps env snakeBody 0).failed with _ | a
    · simp only [mainSnake, hx]
      exact le_trans (runSteps_elapsed_le env snakeBody 0) (by decide)
    · simp only [mainSnake, hx]
      exact le_trans (runSteps_elapsed_le env snakeBody 0) (by decide)
  · intro a h
    constructor
    · exact Or.inl ⟨a, by simp [mainMines, h]⟩
    · simp [mainMines, h]
  · intro a h
    constructor
    · exact Or.inl ⟨a, by simp [mainFocus, h]⟩
    · simp [mainFocus, h]
  · intro a h
    constructor
    · exact Or.inr (by simp [mainSnake, h])
    · simp [mainSnake, h]

/-- Witness for C7: concrete runs in which a readiness wait fails (the
Minesweeper ready-text assertion, the focus scenario's grid wait, the Snake
overlay wait): each run reports failure and still closes the session. -/
theorem C7_bounded_waits_report_failure_witness :
    (failureIndicated (mainMines (envFailAt 2)) ∧
      Event.closeS ∈ (mainMines (envFailAt 2)).trace) ∧
    (failureIndicated (mainFocus (envFailAt 3)) ∧
      Event.closeS ∈ (mainFocus (envFailAt 3)).trace) ∧
    (failureIndicated (mainSnake (envFailAt 3)) ∧
      Event.closeS ∈ (mainSnake (envFailAt 3)).trace) :=
  ⟨(C7_bounded_waits_report_failure (envFailAt 2)).2.2.1 minesAssertReady (by rfl),
   (C7_bounded_waits_report_failure (envFailAt 3)).2.2.2.1 focusAssertGrid (by rfl),
   (C7_bounded_waits_report_failure (envFailAt 3)).2.2.2.2 snakeWaitSel (by rfl)⟩

end Verify
